import Mathlib

/-!
Verification development for the picker module of nix-alien
(src/nix_alien/picker.py).  The Python code is shallowly embedded:
pure string manipulation is translated to Lean functions on strings and
character lists, the external subprocess and the embedded pyfzf library
are oracles passed in as parameters, and Python exceptions are modelled
with an explicit error type threaded through Except.
-/

namespace Picker

/-! ## Python string primitives -/

/-- Whitespace characters removed by the Python method str.strip with no
argument.  The full Python set also has the Unicode space separators; the
repository only ever strips ASCII data, so the ASCII part is modelled. -/
def isPyWs (c : Char) : Bool :=
  c = ' ' || c = '\t' || c = '\n' || c = '\x0b' || c = '\x0c' || c = '\r' ||
  c = '\x1c' || c = '\x1d' || c = '\x1e' || c = '\x1f' || c = '\x85'

/-- Python str.strip on a character list: drop whitespace from the right,
then from the left.  The final operation is an outer dropWhile so that the
head of the result is visibly not whitespace. -/
def pyStripL (l : List Char) : List Char :=
  List.dropWhile isPyWs ((List.dropWhile isPyWs l.reverse).reverse)

/-- Python str.strip. -/
def pyStrip (s : String) : String := ⟨pyStripL s.data⟩

/-- Line boundary characters of the Python method str.splitlines: line
feed, carriage return, vertical tab, form feed, the three information
separators, next line, line separator and paragraph separator. -/
def isPyLineBreak (c : Char) : Bool :=
  c = '\n' || c = '\r' || c = '\x0b' || c = '\x0c' ||
  c = '\x1c' || c = '\x1d' || c = '\x1e' || c = '\x85' ||
  c = '\u2028' || c = '\u2029'

/-- Python str.splitlines with keepends: a line ends at any boundary
character, and the carriage return followed by a line feed counts as one
two character ending. -/
def splitKEL : List Char → List (List Char)
  | [] => []
  | '\r' :: '\n' :: rest => ['\r', '\n'] :: splitKEL rest
  | c :: rest =>
    if isPyLineBreak c then [c] :: splitKEL rest
    else
      match splitKEL rest with
      | [] => [[c]]
      | l :: ls => (c :: l) :: ls

/-- The prefix added by textwrap.indent in the module: the module constant
holds two spaces. -/
def INDENT : List Char := [' ', ' ']

/-- One line of textwrap.indent with the default predicate: the prefix is
added exactly to lines whose strip is nonempty. -/
def indentLineL (l : List Char) : List Char :=
  if pyStripL l = [] then l else INDENT ++ l

/-- textwrap.indent with the module prefix of two spaces on a character
list. -/
def pyIndentL (l : List Char) : List Char :=
  ((splitKEL l).map indentLineL).flatten

/-- textwrap.indent with the module prefix of two spaces. -/
def pyIndent (s : String) : String := ⟨pyIndentL s.data⟩

/-! ## string.Template.safe_substitute with the single mapping title

The default Template pattern recognizes, at each dollar sign and in this
order: an escaped double dollar standing for one dollar, a braced
identifier, a bare identifier, and an invalid lone dollar kept as is.
Identifiers are ASCII: a letter or underscore then letters, digits or
underscores.  safe_substitute replaces the one known name title and keeps
unknown placeholders and invalid dollars unchanged. -/

/-- First character of a Template identifier. -/
def isIdStart (c : Char) : Bool := c.isAlpha || c = '_'

/-- Later character of a Template identifier. -/
def isIdChar (c : Char) : Bool := c.isAlphanum || c = '_'

/-- The characters of the one substituted name. -/
def titleName : List Char := ['t', 'i', 't', 'l', 'e']

theorem dropWhile_len_le (p : Char → Bool) :
    ∀ l : List Char, (l.dropWhile p).length ≤ l.length := by
  intro l
  induction l with
  | nil => simp
  | cons c rest ih =>
    simp only [List.dropWhile_cons]
    split
    · exact Nat.le_succ_of_le ih
    · simp

theorem len_of_dropWhile_eq_cons {p : Char → Bool} {l r : List Char} {c : Char}
    (h : l.dropWhile p = c :: r) : r.length + 1 ≤ l.length := by
  have h1 := dropWhile_len_le p l
  rw [h] at h1
  simpa using h1

/-- Template(tpl).safe_substitute(title=title) on character lists,
mirroring the regex scan of the Python standard library: each branch of
the match is one alternative of the Template pattern, and on a failed
braced or invalid match the scan resumes right after the lone dollar. -/
def tmplSubL (title : List Char) : List Char → List Char
  | [] => []
  | c :: rest =>
    if c ≠ '$' then c :: tmplSubL title rest
    else
      match rest with
      | [] => ['$']
      | d :: r2 =>
        if d = '$' then '$' :: tmplSubL title r2
        else if d = '\x7b' then
          match r2 with
          | [] => '$' :: tmplSubL title ['\x7b']
          | e :: r3 =>
            if isIdStart e then
              match hdw : r3.dropWhile isIdChar with
              | '\x7d' :: r4 =>
                if e :: r3.takeWhile isIdChar = titleName then
                  title ++ tmplSubL title r4
                else
                  '$' :: '\x7b' :: ((e :: r3.takeWhile isIdChar) ++
                    '\x7d' :: tmplSubL title r4)
              | _ => '$' :: tmplSubL title ('\x7b' :: e :: r3)
            else '$' :: tmplSubL title ('\x7b' :: e :: r3)
        else if isIdStart d then
          if d :: r2.takeWhile isIdChar = titleName then
            title ++ tmplSubL title (r2.dropWhile isIdChar)
          else
            ('$' :: d :: r2.takeWhile isIdChar) ++
              tmplSubL title (r2.dropWhile isIdChar)
        else '$' :: tmplSubL title (d :: r2)
  termination_by l => l.length
  decreasing_by
    all_goals simp_arith
    all_goals first
      | exact Nat.le_succ_of_le (dropWhile_len_le _ _)
      | (have h1 := len_of_dropWhile_eq_cons hdw
         omega)

/-- Template(tpl).safe_substitute(title=title) on strings: the rendering
used by the shell executor on each argument template. -/
def safeSubstituteTitle (title tpl : String) : String :=
  ⟨tmplSubL title.data tpl.data⟩

/-- True when the scan is at an identifier boundary: end of input or a
character that cannot continue an identifier. -/
def atIdBoundary : List Char → Bool
  | [] => true
  | c :: _ => !(isIdChar c)

/-- Rendering as the specification words it, plus the amendment forced by
the code: substitute the title wherever a dollar title placeholder (bare
with a boundary after it, or braced) appears, pass every other dollar and
all remaining text through unchanged, except that a doubled dollar is an
escape and renders as a single dollar. -/
def renderSpecAL (title : List Char) : List Char → List Char
  | [] => []
  | '$' :: '$' :: rest => '$' :: renderSpecAL title rest
  | '$' :: '\x7b' :: 't' :: 'i' :: 't' :: 'l' :: 'e' :: '\x7d' :: rest =>
    title ++ renderSpecAL title rest
  | '$' :: 't' :: 'i' :: 't' :: 'l' :: 'e' :: rest =>
    if atIdBoundary rest then title ++ renderSpecAL title rest
    else '$' :: 't' :: 'i' :: 't' :: 'l' :: 'e' :: renderSpecAL title rest
  | '$' :: rest => '$' :: renderSpecAL title rest
  | c :: rest => c :: renderSpecAL title rest

/-- Rendering exactly as the claim words it, with no escape rule: dollar
title placeholders are substituted and every other character, a doubled
dollar included, passes through unchanged. -/
def renderSpecStrictL (title : List Char) : List Char → List Char
  | [] => []
  | '$' :: '\x7b' :: 't' :: 'i' :: 't' :: 'l' :: 'e' :: '\x7d' :: rest =>
    title ++ renderSpecStrictL title rest
  | '$' :: 't' :: 'i' :: 't' :: 'l' :: 'e' :: rest =>
    if atIdBoundary rest then title ++ renderSpecStrictL title rest
    else '$' :: 't' :: 'i' :: 't' :: 'l' :: 'e' :: renderSpecStrictL title rest
  | '$' :: rest => '$' :: renderSpecStrictL title rest
  | c :: rest => c :: renderSpecStrictL title rest

/-! ## shlex quoting, used by the embedded prompt executor -/

/-- Characters that shlex.quote leaves unquoted: ASCII word characters
and the punctuation of its safe set. -/
def shlexSafeChar (c : Char) : Bool :=
  c.isAlphanum || c = '_' || c = '@' || c = '%' || c = '+' || c = '=' ||
  c = ':' || c = ',' || c = '.' || c = '/' || c = '-'

/-- shlex.quote: the empty string becomes two quotes, a safe string is
returned unchanged, anything else is wrapped in single quotes with each
inner single quote turned into the quote dance.  The replace call of the
source has a one character pattern, so it is modelled as a character by
character rewrite. -/
def shlexQuote (s : String) : String :=
  if s = "" then "\x27\x27"
  else if s.data.all shlexSafeChar then s
  else
    "\x27" ++ String.mk ((s.data.map fun c =>
      if c = '\x27' then "\x27\"\x27\"\x27".data else [c]).flatten) ++ "\x27"

/-- shlex.join: quote every token and join with single spaces. -/
def shlexJoin (l : List String) : String :=
  String.intercalate " " (l.map shlexQuote)

/-! ## Python exceptions and external effects

Exceptions are values of an explicit error type; str of the exception is
the stored message.  The subprocess module and the pyfzf library are the
two external effects; they are passed in as oracle functions so the theorems
can quantify over every possible behaviour of the outside world. -/

/-- The exceptions the picker module can raise or observe. -/
inductive PyError where
  | valueError (msg : String)
  | fileNotFoundError (msg : String)
  | runtimeError (msg : String)
  | typeError (msg : String)
  | otherError (msg : String)
deriving DecidableEq, Repr

/-- str of the exception. -/
def errMsg : PyError → String
  | .valueError m => m
  | .fileNotFoundError m => m
  | .runtimeError m => m
  | .typeError m => m
  | .otherError m => m

/-- What one call of subprocess.run can do: finish with an exit code and
captured output streams, raise FileNotFoundError because the executable
is absent, or raise some other launch error. -/
inductive SubprocessOutcome where
  | completed (returncode : Int) (stdout stderr : String)
  | fileNotFound (msg : String)
  | launchFailure (msg : String)
deriving DecidableEq, Repr

/-- Behaviour of subprocess.run as a function of the argument vector and
the text fed to standard input. -/
def SubprocessOracle := List String → String → SubprocessOutcome

/-- Behaviour of FzfPrompt().prompt as a function of the entries and the
option string; an error also covers a failing FzfPrompt construction. -/
def PyfzfOracle := List String → String → Except PyError (List String)

deriving instance DecidableEq for Except

/-- Result of the shell executor: the returned value or the raised
exception, together with the list of subprocess invocations it made,
each as the argument vector and the standard input text. -/
structure ShellResult where
  result : Except PyError (Option String)
  calls : List (List String × String)
deriving DecidableEq, Repr

/-! ## The shell command executor -/

/-- Message of the ValueError raised on an empty command.  The source
builds it from a plain string literal, not an f-string, so the text
keeps the braced name instead of the command value. -/
def emptyCommandMsg : String :=
  "Given \x27command\x27 parameter is empty or whitespace only: \x27\x7bcommand\x7d\x27"

/-- Message of the RuntimeError raised inside the guarded block on an
unexpected exit code: the code and the stripped standard error, with a
placeholder when that strip is empty. -/
def exitCodeMsg (rc : Int) (stderr : String) : String :=
  "Exit code " ++ toString rc ++ ": \n" ++
    (if pyStrip stderr = "" then "No error message returned." else pyStrip stderr)

/-- Message of the RuntimeError produced by the generic handler of the
guarded block: the command line and the indented message of the original
exception. -/
def shellExecFailMsg (command : String) (formatted_args : List String)
    (emsg : String) : String :=
  "Failed to execute shell command: " ++ command ++ " " ++
    String.intercalate " " formatted_args ++ "\x27\n" ++ pyIndent emsg

/-- Message of the FileNotFoundError re-raised when the executable is
absent. -/
def binaryNotFoundMsg (command : String) : String :=
  "Could not find the binary \x27" ++ command ++ "\x27 in your PATH."

/-- The function _run_shell.  The oracle stands for subprocess.run.  The
optional parameters mirror the Python parameters typed as list or None.
Control flow of the source: the ValueError precedes the guarded block, so
no subprocess runs on that path; the RuntimeError raised on an unexpected
exit code is raised inside the guarded block, hence caught by the generic
handler and re-wrapped; the FileNotFoundError is re-raised from within a
handler, and an exception raised in a handler is not caught by the later
handlers of the same block, so it propagates unwrapped. -/
def runShell (oracle : SubprocessOracle) (entries : List String)
    (title : String) (command : String) (args : Option (List String))
    (success_exit_codes : Option (List Int)) (ignore_exit_codes : Option (List Int))
    (entry_separator : String) : ShellResult :=
  let args := args.getD []
  let success_exit_codes := success_exit_codes.getD []
  let ignore_exit_codes := ignore_exit_codes.getD []
  let command := pyStrip command
  if command = "" then
    ⟨.error (.valueError emptyCommandMsg), []⟩
  else
    let formatted_args := args.map (fun a => safeSubstituteTitle title a)
    let full_cmd := command :: formatted_args
    let stdin := String.intercalate entry_separator entries
    match oracle full_cmd stdin with
    | .completed rc stdout stderr =>
      if rc ∈ success_exit_codes then
        ⟨.ok (if pyStrip stdout = "" then none else some (pyStrip stdout)),
          [(full_cmd, stdin)]⟩
      else if rc ∈ ignore_exit_codes then
        ⟨.ok none, [(full_cmd, stdin)]⟩
      else
        ⟨.error (.runtimeError
            (shellExecFailMsg command formatted_args (exitCodeMsg rc stderr))),
          [(full_cmd, stdin)]⟩
    | .fileNotFound _ =>
      ⟨.error (.fileNotFoundError (binaryNotFoundMsg command)), [(full_cmd, stdin)]⟩
    | .launchFailure emsg =>
      ⟨.error (.runtimeError (shellExecFailMsg command formatted_args emsg)),
        [(full_cmd, stdin)]⟩

/-! ## The embedded prompt executor -/

/-- The function _run_pyfzf.  The oracle stands for the pyfzf client; the
lazily cached client instance only affects how often the library object
is constructed, not the value semantics modelled here.  The option string
appends the formatted title to the arguments and shell-quotes every
token; a nonempty result list yields its first element. -/
def runPyfzf (pyfzf : PyfzfOracle) (entries : List String) (title : String)
    (args : Option (List String)) : Except PyError (Option String) :=
  let args := args.getD []
  let options := shlexJoin (args ++ [title ++ "> "])
  match pyfzf entries options with
  | .error e => .error e
  | .ok [] => .ok none
  | .ok (x :: _) => .ok (some x)

/-! ## The preset registry

A Python preset is a dict.  Each field of the structure is the value of
one possible key; the outer Option marks whether the key is present, and
for the keys whose Python type admits None a second inner Option holds
that value.  The built-in presets always carry concrete lists. -/

/-- One preset configuration dict. -/
structure PickerConfig where
  strategy : Option String
  command : Option String
  args : Option (Option (List String))
  success_exit_codes : Option (Option (List Int))
  ignore_exit_codes : Option (Option (List Int))
  entry_separator : Option String
deriving DecidableEq, Repr

/-- The default picker identifier. -/
def DEFAULT_PICKER : String := "default"

/-- The PICKERS registry as an association list in source order. -/
def PICKERS : List (String × PickerConfig) :=
  [("default", PickerConfig.mk (some "pyfzf") none
      (some (some ["--cycle", "--prompt"])) none none none),
   ("fzf", PickerConfig.mk (some "shell") (some "fzf")
      (some (some ["--cycle", "--prompt", "$title"]))
      (some (some [0])) (some (some [130])) (some " ")),
   ("zenity", PickerConfig.mk (some "shell") (some "zenity")
      (some (some ["--list", "--title=nix-alien: Choose a package",
        "--text=$title", "--column=Libraries"]))
      (some (some [0])) (some (some [1])) (some " "))]

/-- Calling _run_shell with the spread preset dict: the dict must supply
the four required parameters or the call raises TypeError before the
function body runs; a missing entry_separator key falls back to the
newline default of the signature. -/
def runShellE (oracle : SubprocessOracle) (entries : List String)
    (title : String) (cfg : PickerConfig) : ShellResult :=
  match cfg.command, cfg.args, cfg.success_exit_codes, cfg.ignore_exit_codes with
  | some command, some args, some succ, some ign =>
    runShell oracle entries title command args succ ign
      (cfg.entry_separator.getD "\n")
  | _, _, _, _ =>
    ⟨.error (.typeError "_run_shell() missing required positional arguments"),
      []⟩

/-- Calling _run_pyfzf with the spread preset dict: args is the one
required parameter taken from the dict; every other key is absorbed by
the keyword catch-all. -/
def runPyfzfE (pyfzf : PyfzfOracle) (entries : List String) (title : String)
    (cfg : PickerConfig) : Except PyError (Option String) :=
  match cfg.args with
  | some args => runPyfzf pyfzf entries title args
  | none =>
    .error (.typeError "_run_pyfzf() missing 1 required positional argument")

/-! ## str of a preset dict, needed by one dispatcher diagnostic -/

/-- repr of a Python str for the ASCII strings the module handles: pick
the quote, escape backslashes, the quote, and the control characters. -/
def pyStrRepr (s : String) : String :=
  let q : Char := if s.data.contains '\x27' && !(s.data.contains '"')
    then '"' else '\x27'
  let esc : Char → String := fun c =>
    if c = '\\' then "\\\\"
    else if c = q then "\\" ++ q.toString
    else if c = '\n' then "\\n"
    else if c = '\r' then "\\r"
    else if c = '\t' then "\\t"
    else if c.toNat < 32 || c.toNat = 127 then
      "\\x" ++ String.mk [Nat.digitChar (c.toNat / 16), Nat.digitChar (c.toNat % 16)]
    else c.toString
  q.toString ++ String.join (s.data.map esc) ++ q.toString

/-- repr of a Python list given a repr for its elements. -/
def pyListRepr (f : α → String) (l : List α) : String :=
  "[" ++ String.intercalate ", " (l.map f) ++ "]"

/-- repr of a value that may be None. -/
def pyOptRepr (f : α → String) : Option α → String
  | none => "None"
  | some v => f v

/-- str of a preset dict: the present keys in field order, which is the
insertion order of every dict in the registry. -/
def configRepr (cfg : PickerConfig) : String :=
  "\x7b" ++ String.intercalate ", " (List.filterMap id
    [cfg.strategy.map (fun v => "\x27strategy\x27: " ++ pyStrRepr v),
     cfg.command.map (fun v => "\x27command\x27: " ++ pyStrRepr v),
     cfg.args.map (fun v =>
       "\x27args\x27: " ++ pyOptRepr (pyListRepr pyStrRepr) v),
     cfg.success_exit_codes.map (fun v =>
       "\x27success_exit_codes\x27: " ++ pyOptRepr (pyListRepr toString) v),
     cfg.ignore_exit_codes.map (fun v =>
       "\x27ignore_exit_codes\x27: " ++ pyOptRepr (pyListRepr toString) v),
     cfg.entry_separator.map (fun v =>
       "\x27entry_separator\x27: " ++ pyStrRepr v)]) ++ "\x7d"

/-! ## The dispatcher -/

/-- A value of the strategy registry dict as the dispatcher tests it: a
falsy value shares the branch of a missing key, a truthy value that is
not callable has its own branch, and a callable one is invoked with the
entries, the title and the spread preset dict. -/
inductive StratValue where
  | falsy
  | notCallable
  | callableFn (f : List String → String → PickerConfig →
      Except PyError (Option String))

/-- The RUN_STRATEGIES dict of the source, closed over the two external
oracles. -/
def RUN_STRATEGIES (oracle : SubprocessOracle) (pyfzf : PyfzfOracle) :
    List (String × StratValue) :=
  [("pyfzf", .callableFn (fun e t cfg => runPyfzfE pyfzf e t cfg)),
   ("shell", .callableFn (fun e t cfg => (runShellE oracle e t cfg).result))]

/-- Diagnostic for an unknown preset identifier; the two f-strings of the
source are adjacent, so no space separates the sentences, and the valid
names are the joined registry keys. -/
def unknownPresetMsg (pid : String) (keys : List String) : String :=
  "Argument \x27" ++ pid ++ "\x27 is not the name of an existing picker preset." ++
    "Valid names are: \x27" ++ String.intercalate ", " keys ++ "\x27"

/-- Diagnostic for a preset with an empty or missing strategy field. -/
def emptyStrategyMsg (pid : String) : String :=
  "Internal Error: Preset picker config " ++ pid ++
    " has an empty or null \x27strategy\x27 field."

/-- Diagnostic for a strategy name absent from the registry or mapped to
a falsy value; the adjacent f-strings leave no space before uses. -/
def unknownStrategyMsg (pid strat : String) : String :=
  "Internal Error: Preset picker config " ++ pid ++
    "uses an unknown strategy called \x27" ++ strat ++ "\x27"

/-- Diagnostic for a truthy strategy value that is not callable; the
adjacent literals leave no space inside is not. -/
def notCallableMsg (strat : String) : String :=
  "Internal Error: Strategy \x27" ++ strat ++
    "\x27 points to a value that is" ++ "not a function."

/-- Diagnostic printed when the executor raises: the header naming the
preset, the strategy and the call parameters, then the indented message
of the exception, joined by a newline. -/
def executorErrorMsg (pid strat title : String) (cfg : PickerConfig)
    (emsg : String) : String :=
  String.intercalate "\n"
    ["Picker preset \x27" ++ pid ++ "\x27 (with strategy \x27" ++ strat ++
      "\x27) (called with params: title=" ++ title ++ ", config=" ++
      configRepr cfg ++ ") raised the following error:",
     pyIndent emsg]

/-- Modelled from the spec: get_print lives in the helpers module, which
is not part of the supplied sources.  Per the specification the
diagnostics are human-readable messages written to the error stream and
suppressible through the caller-controlled silence flag, so the printer
emits its message exactly when the flag is off and never fails. -/
def get_print (silent : Bool) (msgs : List String) : List String :=
  if silent then [] else msgs

/-- The dispatcher prompt over explicit registries: look up the stripped
identifier, validate the strategy field, resolve and check the strategy
value, invoke it guarded, and never let an exception escape.  The first
component is the outcome as the caller sees it and the second is the
list of diagnostics written to the error stream. -/
def promptAux (strategies : List (String × StratValue))
    (pickers : List (String × PickerConfig)) (entries : List String)
    (picker_id : String) (prompt_title : String) (silent : Bool) :
    Except PyError (Option String) × List String :=
  let pid := pyStrip picker_id
  match List.lookup pid pickers with
  | none =>
    (.ok none, get_print silent [unknownPresetMsg pid (pickers.map Prod.fst)])
  | some picker_config =>
    let strat_name := pyStrip (picker_config.strategy.getD "")
    if strat_name = "" then
      (.ok none, get_print silent [emptyStrategyMsg pid])
    else
      match List.lookup strat_name strategies with
      | none => (.ok none, get_print silent [unknownStrategyMsg pid strat_name])
      | some .falsy =>
        (.ok none, get_print silent [unknownStrategyMsg pid strat_name])
      | some .notCallable =>
        (.ok none, get_print silent [notCallableMsg strat_name])
      | some (.callableFn f) =>
        match f entries prompt_title picker_config with
        | .ok r => (.ok r, [])
        | .error e =>
          (.ok none, get_print silent
            [executorErrorMsg pid strat_name prompt_title picker_config
              (errMsg e)])

/-- The public prompt entry point: the dispatcher over the concrete
registries of the source, closed over the two external oracles. -/
def prompt (oracle : SubprocessOracle) (pyfzf : PyfzfOracle)
    (entries : List String) (picker_id : String) (prompt_title : String)
    (silent : Bool) : Except PyError (Option String) × List String :=
  promptAux (RUN_STRATEGIES oracle pyfzf) PICKERS entries picker_id
    prompt_title silent

/-! ## Substring containment and support lemmas -/

/-- sub occurs inside s as a contiguous run of characters. -/
abbrev strContains (s sub : String) : Prop := sub.data <:+: s.data

theorem data_append (s t : String) : (s ++ t).data = s.data ++ t.data := rfl

theorem infix_grow_left {a x : List Char} (w : List Char) (h : a <:+: x) :
    a <:+: w ++ x := by
  obtain ⟨s, t, rfl⟩ := h
  exact ⟨w ++ s, t, by simp⟩

theorem infix_grow_right {a x : List Char} (w : List Char) (h : a <:+: x) :
    a <:+: x ++ w := by
  obtain ⟨s, t, rfl⟩ := h
  exact ⟨s, t ++ w, by simp⟩

theorem infix_self_mid (p q a : List Char) : a <:+: p ++ a ++ q := ⟨p, q, rfl⟩

theorem dropWhile_head_false {p : Char → Bool} :
    ∀ {l : List Char} {c : Char} {r : List Char},
      l.dropWhile p = c :: r → p c = false := by
  intro l
  induction l with
  | nil => intro c r h; cases h
  | cons a rest ih =>
    intro c r h
    rw [List.dropWhile_cons] at h
    split at h
    · exact ih h
    · cases h
      rename_i hcond
      exact Bool.eq_false_iff.mpr hcond

theorem mem_dropWhile_of_not {p : Char → Bool} {l : List Char} {a : Char}
    (ha : a ∈ l) (hp : p a = false) : a ∈ l.dropWhile p := by
  induction l with
  | nil => cases ha
  | cons c rest ih =>
    rw [List.dropWhile_cons]
    split
    · rcases List.mem_cons.mp ha with rfl | hm
      · rename_i hc
        rw [hp] at hc
        cases hc
      · exact ih hm
    · exact ha

theorem pyStripL_ne_nil {l : List Char} {a : Char} (ha : a ∈ l)
    (hp : isPyWs a = false) : pyStripL l ≠ [] := by
  unfold pyStripL
  intro h
  have h1 := List.dropWhile_eq_nil_iff.mp h
  have m1 : a ∈ List.dropWhile isPyWs l.reverse :=
    mem_dropWhile_of_not (List.mem_reverse.mpr ha) hp
  have h2 := h1 a (List.mem_reverse.mpr m1)
  rw [hp] at h2
  cases h2

set_option maxHeartbeats 1000000 in
theorem splitKEL_nonbreak_cons {c : Char} (rest : List Char)
    (hc : isPyLineBreak c = false) :
    splitKEL (c :: rest) =
      match splitKEL rest with
      | [] => [[c]]
      | l :: ls => (c :: l) :: ls := by
  have hcr : c ≠ '\r' := by
    intro e
    subst e
    exact absurd hc (by decide)
  rw [splitKEL.eq_def]
  split <;> rename_i heq
  · exact absurd heq (List.cons_ne_nil c rest)
  · injection heq with h1 h2
    exact absurd h1 hcr
  · injection heq with h1 h2
    subst h1
    subst h2
    rw [if_neg (by simp [hc])]

set_option maxHeartbeats 1000000 in
theorem splitKEL_newline_split {a : List Char} (b : List Char)
    (h : ∀ c ∈ a, isPyLineBreak c = false) :
    splitKEL (a ++ '\n' :: b) = (a ++ ['\n']) :: splitKEL b := by
  induction a with
  | nil =>
    show splitKEL ('\n' :: b) = ['\n'] :: splitKEL b
    rw [splitKEL.eq_def]
    split <;> rename_i heq
    · exact absurd heq (List.cons_ne_nil _ _)
    · injection heq with h1 h2
      exact absurd h1 (by decide)
    · injection heq with h1 h2
      subst h1
      subst h2
      rw [if_pos (by decide)]
  | cons c a' ih =>
    have hc := h c (List.mem_cons_self c a')
    have h' : ∀ d ∈ a', isPyLineBreak d = false :=
      fun d hd => h d (List.mem_cons_of_mem _ hd)
    rw [List.cons_append, splitKEL_nonbreak_cons _ hc, ih h']
    simp

theorem splitKEL_single {l : List Char}
    (hnl : ∀ c ∈ l, isPyLineBreak c = false) (hne : l ≠ []) :
    splitKEL l = [l] := by
  induction l with
  | nil => cases hne rfl
  | cons c rest ih =>
    have hc := hnl c (List.mem_cons_self c rest)
    rw [splitKEL_nonbreak_cons _ hc]
    by_cases hr : rest = []
    · subst hr
      simp [splitKEL]
    · have h' := ih (fun d hd => hnl d (List.mem_cons_of_mem _ hd)) hr
      rw [h']

theorem pyIndentL_split {a : List Char} (b : List Char)
    (hnl : ∀ c ∈ a, isPyLineBreak c = false)
    (hx : ∃ x ∈ a, isPyWs x = false) :
    pyIndentL (a ++ '\n' :: b) = INDENT ++ a ++ '\n' :: pyIndentL b := by
  unfold pyIndentL
  rw [splitKEL_newline_split b hnl]
  rw [List.map_cons, List.flatten_cons]
  obtain ⟨x, hxm, hxw⟩ := hx
  have hne := pyStripL_ne_nil (List.mem_append_left ['\n'] hxm) hxw
  rw [indentLineL, if_neg hne]
  simp

theorem pyIndentL_single {l : List Char}
    (hnl : ∀ c ∈ l, isPyLineBreak c = false)
    (hx : ∃ x ∈ l, isPyWs x = false) : pyIndentL l = INDENT ++ l := by
  obtain ⟨x, hxm, hxw⟩ := hx
  have hne : l ≠ [] := by
    rintro rfl
    cases hxm
  unfold pyIndentL
  rw [splitKEL_single hnl hne]
  rw [List.map_cons, List.map_nil, List.flatten_cons, List.flatten_nil]
  rw [indentLineL, if_neg (pyStripL_ne_nil hxm hxw)]
  simp

theorem digitChar_gt15 (m : Nat) (hm : 16 ≤ m) : Nat.digitChar m = '*' := by
  unfold Nat.digitChar
  repeat rw [if_neg (show ¬ m = _ by omega)]

theorem digitChar_not_break (n : Nat) :
    isPyLineBreak (Nat.digitChar n) = false := by
  by_cases h : n < 16
  · interval_cases n <;> decide
  · rw [digitChar_gt15 n (by omega)]
    decide

theorem toDigitsCore_not_break (b : Nat) : ∀ (fuel n : Nat) (ds : List Char),
    (∀ c ∈ ds, isPyLineBreak c = false) →
    ∀ c ∈ Nat.toDigitsCore b fuel n ds, isPyLineBreak c = false := by
  intro fuel
  induction fuel with
  | zero =>
    intro n ds h
    simpa [Nat.toDigitsCore] using h
  | succ fuel ih =>
    intro n ds h c hc
    rw [Nat.toDigitsCore] at hc
    split at hc
    · rcases List.mem_cons.mp hc with rfl | hm
      · exact digitChar_not_break _
      · exact h c hm
    · refine ih (n / b) (Nat.digitChar (n % b) :: ds) ?_ c hc
      intro d hd
      rcases List.mem_cons.mp hd with rfl | hm
      · exact digitChar_not_break _
      · exact h d hm

theorem natRepr_not_break (n : Nat) :
    ∀ c ∈ (Nat.repr n).data, isPyLineBreak c = false := fun c hc =>
  toDigitsCore_not_break 10 (n + 1) n [] (by simp) c hc

theorem intToString_not_break (i : Int) :
    ∀ c ∈ (toString i).data, isPyLineBreak c = false := by
  cases i with
  | ofNat m => exact natRepr_not_break m
  | negSucc m =>
    intro c hc
    rcases List.mem_append.mp hc with h1 | h2
    · have h1' : c = '-' := by simpa using h1
      subst h1'
      decide
    · exact natRepr_not_break (m + 1) c h2

/-! ## Equivalence of the source rendering with the specified rendering -/

theorem isIdStart_idChar {c : Char} (h : isIdStart c = true) :
    isIdChar c = true := by
  unfold isIdStart at h
  unfold isIdChar Char.isAlphanum
  rcases Bool.or_eq_true _ _ |>.mp h with h1 | h1
  · rw [h1]
    simp
  · rw [h1]
    simp

theorem isIdStart_ne_dollar {c : Char} (h : isIdStart c = true) : c ≠ '$' := by
  intro e
  subst e
  exact absurd h (by decide)

theorem isIdChar_ne_dollar {c : Char} (h : isIdChar c = true) : c ≠ '$' := by
  intro e
  subst e
  exact absurd h (by decide)

theorem atIdBoundary_dropWhile (r : List Char) :
    atIdBoundary (r.dropWhile isIdChar) = true := by
  match h : r.dropWhile isIdChar with
  | [] => rfl
  | c :: r' =>
    show (!isIdChar c) = true
    rw [dropWhile_head_false h]
    rfl

theorem takeWhile_titleTail {rest : List Char} (hb : atIdBoundary rest = true) :
    List.takeWhile isIdChar ('i' :: 't' :: 'l' :: 'e' :: rest) =
      ['i', 't', 'l', 'e'] := by
  rw [List.takeWhile_cons, List.takeWhile_cons, List.takeWhile_cons,
    List.takeWhile_cons]
  have h4 : ∀ c ∈ ['i', 't', 'l', 'e'], isIdChar c = true := by decide
  rw [if_pos (h4 'i' (by simp)), if_pos (h4 't' (by simp)),
    if_pos (h4 'l' (by simp)), if_pos (h4 'e' (by simp))]
  match rest, hb with
  | [], _ => rfl
  | c :: r', hb =>
    have hb' : isIdChar c = false := by simpa [atIdBoundary] using hb
    rw [List.takeWhile_cons, if_neg (by simp [hb'])]

set_option maxHeartbeats 1000000 in
theorem step_nonDollar (title : List Char) {c : Char} {l : List Char}
    (hc : c ≠ '$') :
    renderSpecAL title (c :: l) = c :: renderSpecAL title l := by
  rw [renderSpecAL.eq_def]
  split <;> rename_i heq
  all_goals first
    | exact absurd heq (List.cons_ne_nil c l)
    | (injection heq with h1 h2
       exact absurd h1 hc)
    | (injection heq with h1 h2
       subst h1
       subst h2
       rfl)

theorem copy_run (title : List Char) :
    ∀ (w l : List Char), (∀ c ∈ w, c ≠ '$') →
      renderSpecAL title (w ++ l) = w ++ renderSpecAL title l := by
  intro w
  induction w with
  | nil => intro l _; rfl
  | cons c w' ih =>
    intro l h
    rw [List.cons_append,
      step_nonDollar title (h c (List.mem_cons_self c w')),
      ih l (fun d hd => h d (List.mem_cons_of_mem _ hd))]
    rfl

set_option maxHeartbeats 1000000 in
theorem dollar_step (title : List Char) {l : List Char}
    (hl : l.head? ≠ some '$')
    (hb : ∀ x : List Char, l ≠ '\x7b' :: 't' :: 'i' :: 't' :: 'l' :: 'e' :: '\x7d' :: x)
    (hn : ∀ x : List Char, l = 't' :: 'i' :: 't' :: 'l' :: 'e' :: x →
      atIdBoundary x = false) :
    renderSpecAL title ('$' :: l) = '$' :: renderSpecAL title l := by
  rw [renderSpecAL.eq_def]
  split <;> rename_i heq
  · exact absurd heq (List.cons_ne_nil _ _)
  · injection heq with h1 h2
    subst h2
    exact absurd rfl hl
  · injection heq with h1 h2
    exact absurd h2 (hb _)
  · injection heq with h1 h2
    subst h2
    rw [if_neg (by simp [hn _ rfl])]
    rw [step_nonDollar title (by decide), step_nonDollar title (by decide),
      step_nonDollar title (by decide), step_nonDollar title (by decide),
      step_nonDollar title (by decide)]
  · injection heq with h1 h2
    subst h2
    rfl
  · rename_i hno
    injection heq with h1 h2
    subst h1
    exact absurd rfl hno

/-! ### Unfolding tmplSubL one scan step at a time -/

theorem tmpl_cons_nonDollar (title : List Char) {c : Char} (rest : List Char)
    (hc : c ≠ '$') : tmplSubL title (c :: rest) = c :: tmplSubL title rest := by
  match rest with
  | [] => rw [tmplSubL.eq_2, if_pos hc]
  | [c1] => rw [tmplSubL.eq_3, if_pos hc]
  | c1 :: c2 :: r => rw [tmplSubL.eq_4, if_pos hc]

theorem tmpl_escape (title : List Char) (rest : List Char) :
    tmplSubL title ('$' :: '$' :: rest) = '$' :: tmplSubL title rest := by
  match rest with
  | [] => rw [tmplSubL.eq_3, if_neg (by decide), if_pos rfl]
  | c2 :: r => rw [tmplSubL.eq_4, if_neg (by decide), if_pos rfl]

theorem tmpl_dollar_end (title : List Char) : tmplSubL title ['$'] = ['$'] := by
  rw [tmplSubL.eq_2, if_neg (by decide)]

theorem tmpl_dollar_brace_end (title : List Char) :
    tmplSubL title ['$', '\x7b'] = '$' :: tmplSubL title ['\x7b'] := by
  rw [tmplSubL.eq_3, if_neg (by decide), if_neg (by decide), if_pos rfl]

theorem tmpl_braced (title : List Char) {e : Char} {rest r4 : List Char}
    (he : isIdStart e = true)
    (hdw : List.dropWhile isIdChar rest = '\x7d' :: r4) :
    tmplSubL title ('$' :: '\x7b' :: e :: rest) =
      if e :: List.takeWhile isIdChar rest = titleName then
        title ++ tmplSubL title r4
      else
        '$' :: '\x7b' ::
          (e :: List.takeWhile isIdChar rest ++ '\x7d' :: tmplSubL title r4) := by
  rw [tmplSubL.eq_4, if_neg (by decide), if_neg (by decide), if_pos rfl,
    if_pos he]
  split
  · rename_i r4' heq
    rw [hdw] at heq
    injection heq with h1 h2
    subst h2
    rfl
  · rename_i hno
    exact absurd hdw (hno r4)

theorem tmpl_braced_nomatch (title : List Char) {e : Char} {rest : List Char}
    (he : isIdStart e = true)
    (hnm : ∀ r4 : List Char, List.dropWhile isIdChar rest ≠ '\x7d' :: r4) :
    tmplSubL title ('$' :: '\x7b' :: e :: rest) =
      '$' :: tmplSubL title ('\x7b' :: e :: rest) := by
  rw [tmplSubL.eq_4, if_neg (by decide), if_neg (by decide), if_pos rfl,
    if_pos he]
  split
  · rename_i r4' heq
    exact absurd heq (hnm r4')
  · rfl

theorem tmpl_braced_notId (title : List Char) {e : Char} {rest : List Char}
    (hns : ¬ isIdStart e = true) :
    tmplSubL title ('$' :: '\x7b' :: e :: rest) =
      '$' :: tmplSubL title ('\x7b' :: e :: rest) := by
  rw [tmplSubL.eq_4, if_neg (by decide), if_neg (by decide), if_pos rfl,
    if_neg hns]

theorem tmpl_named (title : List Char) {c1 : Char} (rest : List Char)
    (hd : ¬ c1 = '$') (hbr : ¬ c1 = '\x7b') (hs : isIdStart c1 = true) :
    tmplSubL title ('$' :: c1 :: rest) =
      if c1 :: List.takeWhile isIdChar rest = titleName then
        title ++ tmplSubL title (List.dropWhile isIdChar rest)
      else
        ('$' :: c1 :: List.takeWhile isIdChar rest) ++
          tmplSubL title (List.dropWhile isIdChar rest) := by
  match rest with
  | [] =>
    rw [tmplSubL.eq_3, if_neg (by decide), if_neg hd, if_neg hbr, if_pos hs]
  | c2 :: r =>
    rw [tmplSubL.eq_4, if_neg (by decide), if_neg hd, if_neg hbr, if_pos hs]

theorem tmpl_invalid (title : List Char) {c1 : Char} (rest : List Char)
    (hd : ¬ c1 = '$') (hbr : ¬ c1 = '\x7b') (hs : ¬ isIdStart c1 = true) :
    tmplSubL title ('$' :: c1 :: rest) = '$' :: tmplSubL title (c1 :: rest) := by
  match rest with
  | [] =>
    rw [tmplSubL.eq_3, if_neg (by decide), if_neg hd, if_neg hbr, if_neg hs]
  | c2 :: r =>
    rw [tmplSubL.eq_4, if_neg (by decide), if_neg hd, if_neg hbr, if_neg hs]

theorem atIdBoundary_cons (c : Char) (x : List Char) :
    atIdBoundary (c :: x) = !isIdChar c := rfl

theorem head_cons_ne_dollar {c : Char} (hc : c ≠ '$') (l : List Char) :
    (c :: l).head? ≠ some '$' := by
  intro h
  rw [List.head?_cons] at h
  injection h with h1
  exact hc h1

theorem dropWhile_titleTail (x : List Char) :
    List.dropWhile isIdChar ('i' :: 't' :: 'l' :: 'e' :: x) =
      List.dropWhile isIdChar x := by
  rw [List.dropWhile_cons, if_pos (by decide), List.dropWhile_cons,
    if_pos (by decide), List.dropWhile_cons, if_pos (by decide),
    List.dropWhile_cons, if_pos (by decide)]

set_option maxHeartbeats 2000000 in
/-- The central rendering fact: the regex scan of safe_substitute with
the single mapping title agrees with the direct placeholder rewriting of
the specification extended with the doubled dollar escape. -/
theorem tmplSub_eq_renderSpec (title : List Char) : ∀ l : List Char,
    tmplSubL title l = renderSpecAL title l := by
  intro l
  refine tmplSubL.induct title
    (fun l => tmplSubL title l = renderSpecAL title l)
    ?_ ?_ ?_ ?_ ?_ ?_ ?_ ?_ ?_ ?_ ?_ ?_ l
  · show tmplSubL title [] = renderSpecAL title []
    rw [tmplSubL.eq_1]
    rfl
  · intro c rest hc ih
    rw [tmpl_cons_nonDollar title rest hc, ih, step_nonDollar title hc]
  · intro c hc
    simp only [ne_eq, not_not] at hc
    subst hc
    rw [tmpl_dollar_end,
      dollar_step title (by simp) (fun x h => by simp at h)
        (fun x h => by simp at h)]
    rfl
  · intro c hc rest ih
    simp only [ne_eq, not_not] at hc
    subst hc
    rw [tmpl_escape, ih]
    simp only [renderSpecAL]
  · intro c hc hbr ih
    simp only [ne_eq, not_not] at hc
    subst hc
    rw [tmpl_dollar_brace_end, ih,
      dollar_step title (by decide)
        (fun x h => by
          injection h with h1 h2
          simp at h2)
        (fun x h => by
          injection h with h1 h2
          exact absurd h1 (by decide))]
  · intro c hc c1 rest hstart r4 hdw htw hbr ih
    simp only [ne_eq, not_not] at hc
    subst hc
    have htw' := htw
    unfold titleName at htw'
    injection htw' with hc1 htl
    subst hc1
    have hsplit := List.takeWhile_append_dropWhile isIdChar rest
    rw [htl, hdw] at hsplit
    rw [tmpl_braced title hstart hdw, if_pos htw, ih, ← hsplit]
    simp only [List.cons_append, List.nil_append]
    simp only [renderSpecAL]
  · intro c hc c1 rest hstart r4 hdw htw hbr ih
    simp only [ne_eq, not_not] at hc
    subst hc
    have hsplit := List.takeWhile_append_dropWhile isIdChar rest
    rw [hdw] at hsplit
    rw [tmpl_braced title hstart hdw, if_neg htw, ih]
    have hww : ∀ d ∈ c1 :: List.takeWhile isIdChar rest, d ≠ '$' := by
      intro d hd
      rcases List.mem_cons.mp hd with rfl | hm
      · exact isIdStart_ne_dollar hstart
      · exact isIdChar_ne_dollar (List.mem_takeWhile_imp hm)
    rw [dollar_step title (head_cons_ne_dollar (by decide) _)
      (fun x h => by
        injection h with h1 h2
        injection h2 with hc1 hrest
        subst hc1
        subst hrest
        apply htw
        rw [takeWhile_titleTail (by rw [atIdBoundary_cons]; decide)]
        rfl)
      (fun x h => by
        injection h with h1 h2
        exact absurd h1 (by decide))]
    rw [step_nonDollar title (show ('\x7b' : Char) ≠ '$' by decide)]
    conv_rhs => rw [← hsplit]
    rw [show c1 :: (List.takeWhile isIdChar rest ++ '\x7d' :: r4) =
      (c1 :: List.takeWhile isIdChar rest) ++ ('\x7d' :: r4) from rfl]
    rw [copy_run title (c1 :: List.takeWhile isIdChar rest) ('\x7d' :: r4) hww]
    rw [step_nonDollar title (show ('\x7d' : Char) ≠ '$' by decide)]
  · intro c hc c1 rest hstart hnm hbr ih
    simp only [ne_eq, not_not] at hc
    subst hc
    rw [tmpl_braced_nomatch title hstart (fun r4 h => hnm r4 h), ih,
      dollar_step title (head_cons_ne_dollar (by decide) _)
        (fun x h => by
          injection h with h1 h2
          injection h2 with hc1 hrest
          subst hc1
          subst hrest
          refine hnm x ?_
          rw [dropWhile_titleTail, List.dropWhile_cons, if_neg (by decide)])
        (fun x h => by
          injection h with h1 h2
          exact absurd h1 (by decide))]
  · intro c hc c1 rest hns hbr ih
    simp only [ne_eq, not_not] at hc
    subst hc
    rw [tmpl_braced_notId title hns, ih,
      dollar_step title (head_cons_ne_dollar (by decide) _)
        (fun x h => by
          injection h with h1 h2
          injection h2 with hc1 hrest
          exact absurd (hc1 ▸ (by decide : isIdStart 't' = true)) hns)
        (fun x h => by
          injection h with h1 h2
          exact absurd h1 (by decide))]
  · intro c hc c1 rest hd hbr hstart htw ih
    simp only [ne_eq, not_not] at hc
    subst hc
    have htw' := htw
    unfold titleName at htw'
    injection htw' with hc1 htl
    subst hc1
    have hsplit := List.takeWhile_append_dropWhile isIdChar rest
    rw [htl] at hsplit
    rw [tmpl_named title rest hd hbr hstart, if_pos htw, ih]
    conv_rhs => rw [← hsplit]
    simp only [List.cons_append, List.nil_append]
    simp only [renderSpecAL]
    rw [if_pos (atIdBoundary_dropWhile rest)]
  · intro c hc c1 rest hd hbr hstart htw ih
    simp only [ne_eq, not_not] at hc
    subst hc
    have hsplit := List.takeWhile_append_dropWhile isIdChar rest
    rw [tmpl_named title rest hd hbr hstart, if_neg htw, ih]
    have hww : ∀ d ∈ c1 :: List.takeWhile isIdChar rest, d ≠ '$' := by
      intro d hd'
      rcases List.mem_cons.mp hd' with rfl | hm
      · exact isIdStart_ne_dollar hstart
      · exact isIdChar_ne_dollar (List.mem_takeWhile_imp hm)
    rw [dollar_step title (head_cons_ne_dollar hd _)
      (fun x h => by
        injection h with h1 h2
        exact absurd h1 hbr)
      (fun x h => by
        injection h with h1 h2
        subst h1
        subst h2
        by_contra hbnd
        have hbnd' : atIdBoundary x = true := by
          cases hx : atIdBoundary x
          · exact absurd hx hbnd
          · rfl
        apply htw
        rw [takeWhile_titleTail hbnd']
        rfl)]
    conv_rhs => rw [← hsplit]
    rw [show c1 :: (List.takeWhile isIdChar rest ++ List.dropWhile isIdChar rest) =
      (c1 :: List.takeWhile isIdChar rest) ++ List.dropWhile isIdChar rest from rfl]
    rw [copy_run title (c1 :: List.takeWhile isIdChar rest)
      (List.dropWhile isIdChar rest) hww]
    simp
  · intro c hc c1 rest hd hbr hns ih
    simp only [ne_eq, not_not] at hc
    subst hc
    rw [tmpl_invalid title rest hd hbr hns, ih,
      dollar_step title (head_cons_ne_dollar hd _)
        (fun x h => by
          injection h with h1 h2
          exact absurd h1 hbr)
        (fun x h => by
          injection h with h1 h2
          exact absurd (h1 ▸ (by decide : isIdStart 't' = true)) hns)]

/-- String level form of the rendering equivalence, used to evaluate the
well-founded scan on concrete inputs. -/
theorem safeSubstituteTitle_eval (title tpl : String) :
    safeSubstituteTitle title tpl = ⟨renderSpecAL title.data tpl.data⟩ := by
  unfold safeSubstituteTitle
  rw [tmplSub_eq_renderSpec]

/-! ## Branch computations of the shell executor -/

theorem runShell_empty_cmd (oracle : SubprocessOracle) (entries : List String)
    (title command : String) (args : Option (List String))
    (succ ign : Option (List Int)) (sep : String) (h : pyStrip command = "") :
    runShell oracle entries title command args succ ign sep =
      ⟨.error (.valueError emptyCommandMsg), []⟩ := by
  simp only [runShell, h, if_pos]

theorem runShell_completed (entries : List String) (title command : String)
    (args : List String) (succ ign : List Int) (sep : String)
    (rc : Int) (out err : String) (h : pyStrip command ≠ "") :
    runShell (fun _ _ => .completed rc out err) entries title command
        (some args) (some succ) (some ign) sep =
      ⟨if rc ∈ succ then
          .ok (if pyStrip out = "" then none else some (pyStrip out))
        else if rc ∈ ign then .ok none
        else .error (.runtimeError (shellExecFailMsg (pyStrip command)
          (args.map (fun a => safeSubstituteTitle title a))
          (exitCodeMsg rc err))),
        [(pyStrip command :: args.map (fun a => safeSubstituteTitle title a),
          String.intercalate sep entries)]⟩ := by
  simp only [runShell, Option.getD, if_neg h]
  split
  · rfl
  · split
    · rfl
    · rfl

theorem runShell_fnf (entries : List String) (title command : String)
    (args : List String) (succ ign : List Int) (sep msg0 : String)
    (h : pyStrip command ≠ "") :
    runShell (fun _ _ => .fileNotFound msg0) entries title command
        (some args) (some succ) (some ign) sep =
      ⟨.error (.fileNotFoundError (binaryNotFoundMsg (pyStrip command))),
        [(pyStrip command :: args.map (fun a => safeSubstituteTitle title a),
          String.intercalate sep entries)]⟩ := by
  simp only [runShell, Option.getD, if_neg h]

/-! ## Branch computations of the dispatcher -/

theorem promptAux_unknown (strategies : List (String × StratValue))
    (pickers : List (String × PickerConfig)) (entries : List String)
    (pid title : String) (silent : Bool)
    (h : List.lookup (pyStrip pid) pickers = none) :
    promptAux strategies pickers entries pid title silent =
      (.ok none, get_print silent
        [unknownPresetMsg (pyStrip pid) (pickers.map Prod.fst)]) := by
  simp only [promptAux, h]

theorem promptAux_emptyStrat (strategies : List (String × StratValue))
    (pickers : List (String × PickerConfig)) (entries : List String)
    (pid title : String) (silent : Bool) (cfg : PickerConfig)
    (h : List.lookup (pyStrip pid) pickers = some cfg)
    (hs : pyStrip (cfg.strategy.getD "") = "") :
    promptAux strategies pickers entries pid title silent =
      (.ok none, get_print silent [emptyStrategyMsg (pyStrip pid)]) := by
  simp only [promptAux, h, hs, if_pos]

theorem promptAux_unknownStrat (strategies : List (String × StratValue))
    (pickers : List (String × PickerConfig)) (entries : List String)
    (pid title : String) (silent : Bool) (cfg : PickerConfig)
    (h : List.lookup (pyStrip pid) pickers = some cfg)
    (hs : pyStrip (cfg.strategy.getD "") ≠ "")
    (hr : List.lookup (pyStrip (cfg.strategy.getD "")) strategies = none ∨
      List.lookup (pyStrip (cfg.strategy.getD "")) strategies = some .falsy) :
    promptAux strategies pickers entries pid title silent =
      (.ok none, get_print silent
        [unknownStrategyMsg (pyStrip pid) (pyStrip (cfg.strategy.getD ""))]) := by
  rcases hr with hr | hr
  · simp only [promptAux, h, hr, if_neg hs]
  · simp only [promptAux, h, hr, if_neg hs]

theorem promptAux_notCallable (strategies : List (String × StratValue))
    (pickers : List (String × PickerConfig)) (entries : List String)
    (pid title : String) (silent : Bool) (cfg : PickerConfig)
    (h : List.lookup (pyStrip pid) pickers = some cfg)
    (hs : pyStrip (cfg.strategy.getD "") ≠ "")
    (hr : List.lookup (pyStrip (cfg.strategy.getD "")) strategies =
      some .notCallable) :
    promptAux strategies pickers entries pid title silent =
      (.ok none, get_print silent
        [notCallableMsg (pyStrip (cfg.strategy.getD ""))]) := by
  simp only [promptAux, h, hr, if_neg hs]

theorem promptAux_exec_ok (strategies : List (String × StratValue))
    (pickers : List (String × PickerConfig)) (entries : List String)
    (pid title : String) (silent : Bool) (cfg : PickerConfig)
    (f : List String → String → PickerConfig → Except PyError (Option String))
    (r : Option String)
    (h : List.lookup (pyStrip pid) pickers = some cfg)
    (hs : pyStrip (cfg.strategy.getD "") ≠ "")
    (hr : List.lookup (pyStrip (cfg.strategy.getD "")) strategies =
      some (.callableFn f))
    (hf : f entries title cfg = .ok r) :
    promptAux strategies pickers entries pid title silent = (.ok r, []) := by
  simp only [promptAux, h, hr, hf, if_neg hs]

theorem promptAux_exec_err (strategies : List (String × StratValue))
    (pickers : List (String × PickerConfig)) (entries : List String)
    (pid title : String) (silent : Bool) (cfg : PickerConfig)
    (f : List String → String → PickerConfig → Except PyError (Option String))
    (e : PyError)
    (h : List.lookup (pyStrip pid) pickers = some cfg)
    (hs : pyStrip (cfg.strategy.getD "") ≠ "")
    (hr : List.lookup (pyStrip (cfg.strategy.getD "")) strategies =
      some (.callableFn f))
    (hf : f entries title cfg = .error e) :
    promptAux strategies pickers entries pid title silent =
      (.ok none, get_print silent
        [executorErrorMsg (pyStrip pid) (pyStrip (cfg.strategy.getD ""))
          title cfg (errMsg e)]) := by
  simp only [promptAux, h, hr, hf, if_neg hs]

theorem promptAux_no_raise (strategies : List (String × StratValue))
    (pickers : List (String × PickerConfig)) (entries : List String)
    (pid title : String) (silent : Bool) :
    ((promptAux strategies pickers entries pid title silent).1).isOk = true := by
  simp only [promptAux]
  split
  · rfl
  · split
    · rfl
    · split
      · rfl
      · rfl
      · rfl
      · split
        · rfl
        · rfl

theorem exists_ok_of_isOk {x : Except PyError (Option String)}
    (h : x.isOk = true) : ∃ r, x = .ok r := by
  cases x with
  | ok r => exact ⟨r, rfl⟩
  | error e => exact Bool.noConfusion h

theorem infix_cons {a l : List Char} (c : Char) (h : a <:+: l) :
    a <:+: c :: l := by
  obtain ⟨s, t, rfl⟩ := h
  exact ⟨c :: s, t, rfl⟩

theorem pyStrip_has_nonws {s : String} (h : pyStrip s ≠ "") :
    ∃ x ∈ (pyStrip s).data, isPyWs x = false := by
  cases hd : (pyStrip s).data with
  | nil => exact absurd (String.ext hd) h
  | cons c r =>
    have hc : isPyWs c = false :=
      dropWhile_head_false
        (show List.dropWhile isPyWs
          ((List.dropWhile isPyWs s.data.reverse).reverse) = c :: r from hd)
    exact ⟨c, List.mem_cons_self c r, hc⟩

theorem pyIndent_exitCodeMsg (rc : Int) (err : String) :
    (pyIndent (exitCodeMsg rc err)).data =
      INDENT ++ ("Exit code ".data ++ (toString rc).data ++ [':', ' ']) ++
        '\n' :: pyIndentL
          (if pyStrip err = "" then "No error message returned."
            else pyStrip err).data := by
  show pyIndentL (exitCodeMsg rc err).data = _
  have hdata : (exitCodeMsg rc err).data =
      ("Exit code ".data ++ (toString rc).data ++ [':', ' ']) ++ '\n' ::
        (if pyStrip err = "" then "No error message returned."
          else pyStrip err).data := by
    simp only [exitCodeMsg, data_append]
    simp [List.append_assoc]
  rw [hdata]
  have hnl : ∀ c ∈ "Exit code ".data ++ (toString rc).data ++ [':', ' '],
      isPyLineBreak c = false := by
    intro c hm
    rcases List.mem_append.mp hm with hm1 | hm2
    · rcases List.mem_append.mp hm1 with h1 | h2
      · exact (show ∀ x ∈ "Exit code ".data, isPyLineBreak x = false
          by decide) c h1
      · exact intToString_not_break rc c h2
    · exact (show ∀ x ∈ [':', ' '], isPyLineBreak x = false by decide) c hm2
  have hx : ∃ x ∈ "Exit code ".data ++ (toString rc).data ++ [':', ' '],
      isPyWs x = false :=
    ⟨'E', List.mem_append_left _ (List.mem_append_left _ (by decide)),
      by decide⟩
  exact pyIndentL_split _ hnl hx

/-! ## Claims -/

/-- C6: for every command that is empty or whitespace only after
stripping, the shell executor fails with the invalid argument ValueError
before launching anything: the result is the raised error and the list
of subprocess invocations stays empty, whatever the subprocess oracle
would have answered. -/
theorem C6_empty_command_fails_before_subprocess
    (oracle : SubprocessOracle) (entries : List String)
    (title command : String) (args : Option (List String))
    (succ ign : Option (List Int)) (sep : String)
    (h : pyStrip command = "") :
    (runShell oracle entries title command args succ ign sep).result =
        .error (.valueError emptyCommandMsg) ∧
      (runShell oracle entries title command args succ ign sep).calls = [] := by
  rw [runShell_empty_cmd oracle entries title command args succ ign sep h]
  exact ⟨rfl, rfl⟩

theorem C6_witness :
    pyStrip "   " = "" ∧
      (runShell (fun _ _ => SubprocessOutcome.completed 0 "sel" "") ["a"] "T"
          "   " none none none "\n").result =
        .error (.valueError emptyCommandMsg) ∧
      (runShell (fun _ _ => SubprocessOutcome.completed 0 "sel" "") ["a"] "T"
          "   " none none none "\n").calls = [] :=
  ⟨by decide,
   C6_empty_command_fails_before_subprocess _ _ _ _ _ _ _ _ (by decide)⟩

/-- C10: the invalid argument message on an empty command is one fixed
string for every such command, and that string holds the literal braced
token command because the source literal is not an f-string. -/
theorem C10_literal_brace_in_message (oracle : SubprocessOracle)
    (entries : List String) (title command : String)
    (args : Option (List String)) (succ ign : Option (List Int))
    (sep : String) (h : pyStrip command = "") :
    (runShell oracle entries title command args succ ign sep).result =
        .error (.valueError emptyCommandMsg) ∧
      strContains emptyCommandMsg "\x7bcommand\x7d" := by
  rw [runShell_empty_cmd oracle entries title command args succ ign sep h]
  exact ⟨rfl, by decide⟩

theorem C10_witness :
    pyStrip " " = "" ∧
      (runShell (fun _ _ => SubprocessOutcome.completed 0 "" "") [] "T" " "
          none none none "\n").result =
        .error (.valueError emptyCommandMsg) ∧
      strContains emptyCommandMsg "\x7bcommand\x7d" :=
  ⟨by decide, C10_literal_brace_in_message _ _ _ _ _ _ _ _ (by decide)⟩

/-- C5: when the executable cannot be located, the executor fails with
the distinct FileNotFoundError whose message names the stripped command,
and this error is never the generic RuntimeError wrapper: the re-raise
happens inside a handler, and an exception raised there is not caught by
the later handlers of the same block. -/
theorem C5_executable_not_found_distinct (entries : List String)
    (title command : String) (args : List String) (succ ign : List Int)
    (sep msg0 : String) (h : pyStrip command ≠ "") :
    (runShell (fun _ _ => .fileNotFound msg0) entries title command
        (some args) (some succ) (some ign) sep).result =
        .error (.fileNotFoundError (binaryNotFoundMsg (pyStrip command))) ∧
      strContains (binaryNotFoundMsg (pyStrip command)) (pyStrip command) ∧
      ∀ m : String,
        (runShell (fun _ _ => .fileNotFound msg0) entries title command
          (some args) (some succ) (some ign) sep).result ≠
          .error (.runtimeError m) := by
  rw [runShell_fnf entries title command args succ ign sep msg0 h]
  refine ⟨rfl, ?_, ?_⟩
  · show (pyStrip command).data <:+: (binaryNotFoundMsg (pyStrip command)).data
    simp only [binaryNotFoundMsg, data_append]
    exact infix_grow_right _ (infix_grow_left _ (List.infix_refl _))
  · intro m hm
    injection hm with h1
    exact PyError.noConfusion h1

theorem C5_witness :
    pyStrip "fzf" ≠ "" ∧
      (runShell (fun _ _ => SubprocessOutcome.fileNotFound "x") ["a"] "T"
          "fzf" (some []) (some [0]) (some [130]) " ").result =
        .error (.fileNotFoundError (binaryNotFoundMsg (pyStrip "fzf"))) ∧
      strContains (binaryNotFoundMsg (pyStrip "fzf")) (pyStrip "fzf") :=
  ⟨by decide,
   (C5_executable_not_found_distinct ["a"] "T" "fzf" [] [0] [130] " " "x"
     (by decide)).1,
   (C5_executable_not_found_distinct ["a"] "T" "fzf" [] [0] [130] " " "x"
     (by decide)).2.1⟩

/-- C3: an exit code in the success list yields the stripped standard
output, or None when that strip is empty; an exit code in the ignore
list and not in the success list, which the code checks first, yields
None as a plain value with no error; the built in terminal finder preset
has success code zero with ignore code 130, and the graphical dialog
preset has success code zero with ignore code one. -/
theorem C3_exit_code_classification (entries : List String)
    (title command : String) (args : List String) (succ ign : List Int)
    (sep : String) (rc : Int) (out err : String)
    (h : pyStrip command ≠ "") :
    (rc ∈ succ →
      (runShell (fun _ _ => .completed rc out err) entries title command
          (some args) (some succ) (some ign) sep).result =
        .ok (if pyStrip out = "" then none else some (pyStrip out))) ∧
    (rc ∉ succ → rc ∈ ign →
      (runShell (fun _ _ => .completed rc out err) entries title command
          (some args) (some succ) (some ign) sep).result = .ok none) ∧
    (∃ cfg, List.lookup "fzf" PICKERS = some cfg ∧
      cfg.success_exit_codes = some (some [0]) ∧
      cfg.ignore_exit_codes = some (some [130])) ∧
    (∃ cfg, List.lookup "zenity" PICKERS = some cfg ∧
      cfg.success_exit_codes = some (some [0]) ∧
      cfg.ignore_exit_codes = some (some [1])) := by
  refine ⟨?_, ?_, ⟨_, rfl, rfl, rfl⟩, ⟨_, rfl, rfl, rfl⟩⟩
  · intro hs
    rw [runShell_completed entries title command args succ ign sep rc out err h]
    rw [if_pos hs]
  · intro hns hi
    rw [runShell_completed entries title command args succ ign sep rc out err h]
    rw [if_neg hns, if_pos hi]

theorem C3_witness :
    pyStrip "fzf" ≠ "" ∧ (0 : Int) ∈ [(0 : Int)] ∧
      (runShell (fun _ _ => SubprocessOutcome.completed 0 "libfoo.so.6\n" "")
          ["a"] "T" "fzf" (some []) (some [0]) (some [130]) " ").result =
        .ok (some "libfoo.so.6") ∧
      (runShell (fun _ _ => SubprocessOutcome.completed 130 "" "") ["a"] "T"
          "fzf" (some []) (some [0]) (some [130]) " ").result = .ok none := by
  refine ⟨by decide, by decide, ?_, ?_⟩
  · have h := (C3_exit_code_classification ["a"] "T" "fzf" [] [0] [130] " " 0
      "libfoo.so.6\n" "" (by decide)).1 (by decide)
    rw [h]
    decide
  · exact (C3_exit_code_classification ["a"] "T" "fzf" [] [0] [130] " " 130
      "" "" (by decide)).2.1 (by decide) (by decide)

/-- C8: the subprocess reads on standard input the candidate entries
joined with the entry separator; a preset without an entry separator key
falls back to the newline default of the executor signature; the
concrete joins of the specification hold. -/
theorem C8_stdin_entry_joining (entries : List String)
    (title command : String) (args : List String) (succ ign : List Int)
    (sep : String) (rc : Int) (out err : String) (st : Option String)
    (h : pyStrip command ≠ "") :
    (runShell (fun _ _ => .completed rc out err) entries title command
        (some args) (some succ) (some ign) sep).calls =
      [(pyStrip command :: args.map (fun a => safeSubstituteTitle title a),
        String.intercalate sep entries)] ∧
    (runShellE (fun _ _ => .completed rc out err) entries title
        (PickerConfig.mk st (some command) (some (some args))
          (some (some succ)) (some (some ign)) none)).calls =
      [(pyStrip command :: args.map (fun a => safeSubstituteTitle title a),
        String.intercalate "\n" entries)] ∧
    String.intercalate " " ["a", "b", "c"] = "a b c" ∧
    String.intercalate "\n" ["a", "b", "c"] = "a\nb\nc" := by
  refine ⟨?_, ?_, by decide, by decide⟩
  · rw [runShell_completed entries title command args succ ign sep rc out err h]
  · show (runShell (fun _ _ => .completed rc out err) entries title command
      (some args) (some succ) (some ign) "\n").calls = _
    rw [runShell_completed entries title command args succ ign "\n" rc out
      err h]

theorem C8_witness :
    pyStrip "cat" ≠ "" ∧
      (runShell (fun _ _ => SubprocessOutcome.completed 0 "" "") ["a", "b", "c"]
          "T" "cat" (some []) (some [0]) (some []) " ").calls =
        [(["cat"], "a b c")] ∧
      (runShellE (fun _ _ => SubprocessOutcome.completed 0 "" "") ["a", "b", "c"]
          "T" (PickerConfig.mk none (some "cat") (some (some []))
            (some (some [0])) (some (some [])) none)).calls =
        [(["cat"], "a\nb\nc")] := by
  have h := C8_stdin_entry_joining ["a", "b", "c"] "T" "cat" [] [0] [] " " 0
    "" "" none (by decide)
  refine ⟨by decide, ?_, ?_⟩
  · rw [h.1]
    decide
  · rw [h.2.1]
    decide

/-- C9: the embedded prompt executor builds its option string by shell
quoting the extra arguments followed by the title formatted with the
angle suffix, invokes the library with the entries and that string, and
maps the returned list to its head entry, with None for the empty list;
the quoting of a concrete option list behaves as shlex join does. -/
theorem C9_pyfzf_options_and_result (pyfzf : PyfzfOracle)
    (entries : List String) (title : String) (args : Option (List String))
    (res : List String)
    (h : pyfzf entries (shlexJoin ((args.getD []) ++ [title ++ "> "])) =
      .ok res) :
    runPyfzf pyfzf entries title args = .ok res.head? ∧
      shlexJoin (["--cycle", "--prompt"] ++ ["Select candidate> "]) =
        "--cycle --prompt \x27Select candidate> \x27" := by
  constructor
  · simp only [runPyfzf]
    rw [h]
    cases res
    · rfl
    · rfl
  · decide

theorem C9_witness :
    runPyfzf (fun _ _ => Except.ok ["picked", "other"]) ["a"] "T"
        (some ["--x"]) = .ok (some "picked") ∧
      shlexJoin (["--cycle", "--prompt"] ++ ["Select candidate> "]) =
        "--cycle --prompt \x27Select candidate> \x27" := by
  have h := C9_pyfzf_options_and_result (fun _ _ => Except.ok ["picked", "other"])
    ["a"] "T" (some ["--x"]) ["picked", "other"] rfl
  exact ⟨h.1, h.2⟩

/-- C7 counterexample: the claim as stated, a rendering that substitutes
title placeholders and leaves every other character unchanged, fails on
the template of two dollars: the code renders the escape to one dollar
while the claimed rendering keeps both. -/
theorem C7_counterexample :
    safeSubstituteTitle "Pick one" "$$" = "$" ∧
      String.mk (renderSpecStrictL "Pick one".data "$$".data) = "$$" ∧
      safeSubstituteTitle "Pick one" "$$" ≠
        String.mk (renderSpecStrictL "Pick one".data "$$".data) := by
  refine ⟨?_, by decide, ?_⟩
  · rw [safeSubstituteTitle_eval]
    decide
  · rw [safeSubstituteTitle_eval]
    decide

/-- C7 amended: for every title and template the rendering replaces each
bare or braced title placeholder with the title verbatim, passes unknown
placeholders and invalid dollars through literally without error, and
leaves all other text unchanged, except that the doubled dollar escape
renders as a single dollar; in particular a lone placeholder template
renders exactly to the title, and text with no placeholder is kept. -/
theorem C7_rendering_matches_spec :
    (∀ title tpl : String, safeSubstituteTitle title tpl =
        String.mk (renderSpecAL title.data tpl.data)) ∧
      safeSubstituteTitle "Pick one" "$title" = "Pick one" ∧
      safeSubstituteTitle "Pick one" "no placeholder $x here" =
        "no placeholder $x here" := by
  refine ⟨fun title tpl => safeSubstituteTitle_eval title tpl, ?_, ?_⟩
  · rw [safeSubstituteTitle_eval]
    decide
  · rw [safeSubstituteTitle_eval]
    decide

/-- C1: the dispatcher always returns a plain outcome, a selected string
or None, and no executor exception crosses it: whatever the strategy
registry holds and whatever the two external oracles do, the first
component of the model is an ok value. -/
theorem C1_prompt_never_raises (strategies : List (String × StratValue))
    (pickers : List (String × PickerConfig)) (oracle : SubprocessOracle)
    (pyfzf : PyfzfOracle) (entries : List String) (pid t : String)
    (silent : Bool) :
    (∃ r, (promptAux strategies pickers entries pid t silent).1 = .ok r) ∧
      ∃ r, (prompt oracle pyfzf entries pid t silent).1 = .ok r :=
  ⟨exists_ok_of_isOk (promptAux_no_raise strategies pickers entries pid t silent),
   exists_ok_of_isOk
     (promptAux_no_raise (RUN_STRATEGIES oracle pyfzf) PICKERS entries pid t
       silent)⟩

/-- C2: every configuration error makes the dispatcher print exactly one
diagnostic and return None: an unknown stripped identifier, whose
message lists the valid preset identifiers of the registry; a preset
whose strategy field is missing, empty or whitespace after stripping; a
strategy name missing from the registry or mapped to a falsy value; and
a strategy value that is not callable. -/
theorem C2_config_errors_return_none (strategies : List (String × StratValue))
    (pickers : List (String × PickerConfig)) (entries : List String)
    (pid t : String) (cfg : PickerConfig) :
    (List.lookup (pyStrip pid) PICKERS = none →
      promptAux strategies PICKERS entries pid t false =
        (.ok none,
          [unknownPresetMsg (pyStrip pid) ["default", "fzf", "zenity"]]) ∧
      strContains (unknownPresetMsg (pyStrip pid) ["default", "fzf", "zenity"])
        "default, fzf, zenity") ∧
    (List.lookup (pyStrip pid) pickers = some cfg →
      pyStrip (cfg.strategy.getD "") = "" →
      promptAux strategies pickers entries pid t false =
        (.ok none, [emptyStrategyMsg (pyStrip pid)])) ∧
    (List.lookup (pyStrip pid) pickers = some cfg →
      pyStrip (cfg.strategy.getD "") ≠ "" →
      (List.lookup (pyStrip (cfg.strategy.getD "")) strategies = none ∨
        List.lookup (pyStrip (cfg.strategy.getD "")) strategies =
          some .falsy) →
      promptAux strategies pickers entries pid t false =
        (.ok none,
          [unknownStrategyMsg (pyStrip pid)
            (pyStrip (cfg.strategy.getD ""))])) ∧
    (List.lookup (pyStrip pid) pickers = some cfg →
      pyStrip (cfg.strategy.getD "") ≠ "" →
      List.lookup (pyStrip (cfg.strategy.getD "")) strategies =
        some .notCallable →
      promptAux strategies pickers entries pid t false =
        (.ok none, [notCallableMsg (pyStrip (cfg.strategy.getD ""))])) := by
  refine ⟨fun h => ⟨?_, ?_⟩, fun h hs => ?_, fun h hs hr => ?_,
    fun h hs hr => ?_⟩
  · rw [promptAux_unknown strategies PICKERS entries pid t false h]
    rfl
  · show _ <:+: _
    simp only [unknownPresetMsg, data_append]
    exact infix_grow_right _ (infix_grow_left _ (List.infix_refl _))
  · rw [promptAux_emptyStrat strategies pickers entries pid t false cfg h hs]
    rfl
  · rw [promptAux_unknownStrat strategies pickers entries pid t false cfg h
      hs hr]
    rfl
  · rw [promptAux_notCallable strategies pickers entries pid t false cfg h
      hs hr]
    rfl

theorem C2_witness :
    List.lookup (pyStrip "nope") PICKERS = none ∧
      promptAux [] PICKERS [] "nope" "T" false =
        (.ok none,
          [unknownPresetMsg (pyStrip "nope") ["default", "fzf", "zenity"]]) ∧
      promptAux [] [("p", PickerConfig.mk (some " ") none none none none none)]
          [] "p" "T" false =
        (.ok none, [emptyStrategyMsg (pyStrip "p")]) ∧
      promptAux []
          [("p", PickerConfig.mk (some "bogus") none none none none none)]
          [] "p" "T" false =
        (.ok none,
          [unknownStrategyMsg (pyStrip "p")
            (pyStrip ((some "bogus").getD ""))]) ∧
      promptAux [("bogus", .notCallable)]
          [("p", PickerConfig.mk (some "bogus") none none none none none)]
          [] "p" "T" false =
        (.ok none, [notCallableMsg (pyStrip ((some "bogus").getD ""))]) := by
  refine ⟨by decide, ?_, ?_, ?_, ?_⟩
  · exact ((C2_config_errors_return_none [] PICKERS [] "nope" "T"
      (PickerConfig.mk none none none none none none)).1 (by decide)).1
  · exact (C2_config_errors_return_none []
      [("p", PickerConfig.mk (some " ") none none none none none)] [] "p" "T"
      (PickerConfig.mk (some " ") none none none none none)).2.1
      (by decide) (by decide)
  · exact (C2_config_errors_return_none []
      [("p", PickerConfig.mk (some "bogus") none none none none none)] [] "p"
      "T" (PickerConfig.mk (some "bogus") none none none none none)).2.2.1
      (by decide) (by decide) (Or.inl rfl)
  · exact (C2_config_errors_return_none [("bogus", .notCallable)]
      [("p", PickerConfig.mk (some "bogus") none none none none none)] [] "p"
      "T" (PickerConfig.mk (some "bogus") none none none none none)).2.2.2
      (by decide) (by decide) rfl

/-- C4 counterexample: with a multi line standard error the raised
runtime error message carries each line behind the two space indent of
the generic launch failure wrapper, so the trimmed standard error
content is not embedded verbatim in the message; this holds at every
splitlines boundary, shown here for the line feed and for the carriage
return. -/
theorem C4_counterexample :
    (runShell (fun _ _ => SubprocessOutcome.completed 2 "" "a\nb") [] "t"
        "cmd" (some []) (some [0]) (some [1]) "\n").result =
      .error (.runtimeError
        "Failed to execute shell command: cmd \x27\n  Exit code 2: \n  a\n  b") ∧
      pyStrip "a\nb" = "a\nb" ∧
      ¬ strContains
        "Failed to execute shell command: cmd \x27\n  Exit code 2: \n  a\n  b"
        "a\nb" ∧
      (runShell (fun _ _ => SubprocessOutcome.completed 2 "" "a\rb") [] "t"
          "cmd" (some []) (some [0]) (some [1]) "\n").result =
        .error (.runtimeError
          "Failed to execute shell command: cmd \x27\n  Exit code 2: \n  a\r  b") ∧
      pyStrip "a\rb" = "a\rb" ∧
      ¬ strContains
        "Failed to execute shell command: cmd \x27\n  Exit code 2: \n  a\r  b"
        "a\rb" := by
  refine ⟨?_, by decide, by decide, ?_, by decide, by decide⟩
  · rw [runShell_completed [] "t" "cmd" [] [0] [1] "\n" 2 "" "a\nb" (by decide)]
    decide
  · rw [runShell_completed [] "t" "cmd" [] [0] [1] "\n" 2 "" "a\rb" (by decide)]
    decide

set_option maxRecDepth 8000 in
set_option maxHeartbeats 2000000 in
/-- C4 amended: an exit code outside both lists makes the shell executor
fail with a runtime error, namely the generic launch failure wrapper
around the internal exit code error, which is raised inside the guarded
block and therefore re-wrapped; its message embeds the exit code, embeds
the stripped standard error verbatim when that text is a single line,
meaning it holds none of the splitlines boundary characters, shows the
placeholder when standard error strips to empty, and carries a multi
line standard error line by line behind the two space indent; the
dispatcher logs one diagnostic naming the exit code and returns None. -/
theorem C4_unexpected_exit_wrapped (entries : List String)
    (title command : String) (args : List String) (succ ign : List Int)
    (sep : String) (rc : Int) (out err : String)
    (h : pyStrip command ≠ "") (hns : rc ∉ succ) (hni : rc ∉ ign) :
    (runShell (fun _ _ => .completed rc out err) entries title command
        (some args) (some succ) (some ign) sep).result =
      .error (.runtimeError (shellExecFailMsg (pyStrip command)
        (args.map (fun a => safeSubstituteTitle title a))
        (exitCodeMsg rc err))) ∧
    strContains (shellExecFailMsg (pyStrip command)
        (args.map (fun a => safeSubstituteTitle title a)) (exitCodeMsg rc err))
      ("Exit code " ++ toString rc) ∧
    (pyStrip err ≠ "" →
      (∀ c ∈ (pyStrip err).data, isPyLineBreak c = false) →
      strContains (shellExecFailMsg (pyStrip command)
          (args.map (fun a => safeSubstituteTitle title a))
          (exitCodeMsg rc err))
        (pyStrip err)) ∧
    (pyStrip err = "" →
      strContains (shellExecFailMsg (pyStrip command)
          (args.map (fun a => safeSubstituteTitle title a))
          (exitCodeMsg rc err))
        "No error message returned.") ∧
    (∃ d, prompt (fun _ _ => SubprocessOutcome.completed 2 "" "boom")
        (fun _ _ => Except.ok []) ["lib.so"] "zenity" "Select candidate"
        false = (.ok none, [d]) ∧ strContains d "Exit code 2") := by
  refine ⟨?_, ?_, ?_, ?_, ?_⟩
  · rw [runShell_completed entries title command args succ ign sep rc out err h]
    rw [if_neg hns, if_neg hni]
  · show _ <:+: _
    simp only [shellExecFailMsg, data_append, pyIndent_exitCodeMsg]
    exact infix_grow_left _ (infix_grow_right _ (infix_grow_left _
      (infix_grow_right _ (List.infix_refl _))))
  · intro hne hnl
    show _ <:+: _
    simp only [shellExecFailMsg, data_append, pyIndent_exitCodeMsg,
      if_neg hne]
    rw [pyIndentL_single hnl (pyStrip_has_nonws hne)]
    exact infix_grow_left _ (infix_grow_left _ (infix_cons _
      (infix_grow_left _ (List.infix_refl _))))
  · intro he
    show _ <:+: _
    simp only [shellExecFailMsg, data_append, pyIndent_exitCodeMsg,
      if_pos he]
    rw [pyIndentL_single (by decide)
      (⟨'N', by decide, by decide⟩ :
        ∃ x ∈ "No error message returned.".data, isPyWs x = false)]
    exact infix_grow_left _ (infix_grow_left _ (infix_cons _
      (infix_grow_left _ (List.infix_refl _))))
  · have hf : (fun e t cfg =>
        (runShellE (fun _ _ => SubprocessOutcome.completed 2 "" "boom")
          e t cfg).result) ["lib.so"] "Select candidate"
        (PickerConfig.mk (some "shell") (some "zenity")
          (some (some ["--list", "--title=nix-alien: Choose a package",
            "--text=$title", "--column=Libraries"]))
          (some (some [0])) (some (some [1])) (some " ")) =
        .error (.runtimeError (shellExecFailMsg "zenity"
          (["--list", "--title=nix-alien: Choose a package",
            "--text=$title", "--column=Libraries"].map
            (fun a => safeSubstituteTitle "Select candidate" a))
          (exitCodeMsg 2 "boom"))) := by
      show (runShellE _ _ _ _).result = _
      simp only [runShellE, Option.getD]
      rw [runShell_completed ["lib.so"] "Select candidate" "zenity"
        ["--list", "--title=nix-alien: Choose a package", "--text=$title",
          "--column=Libraries"] [0] [1] " " 2 "" "boom" (by decide)]
      rw [if_neg (by decide), if_neg (by decide)]
      rfl
    have h1 : prompt (fun _ _ => SubprocessOutcome.completed 2 "" "boom")
        (fun _ _ => Except.ok []) ["lib.so"] "zenity" "Select candidate"
        false =
        (.ok none, [executorErrorMsg "zenity" "shell" "Select candidate"
          (PickerConfig.mk (some "shell") (some "zenity")
            (some (some ["--list", "--title=nix-alien: Choose a package",
              "--text=$title", "--column=Libraries"]))
            (some (some [0])) (some (some [1])) (some " "))
          (errMsg (.runtimeError (shellExecFailMsg "zenity"
            (["--list", "--title=nix-alien: Choose a package",
              "--text=$title", "--column=Libraries"].map
              (fun a => safeSubstituteTitle "Select candidate" a))
            (exitCodeMsg 2 "boom"))))]) := by
      show promptAux _ PICKERS _ _ _ _ = _
      rw [promptAux_exec_err (RUN_STRATEGIES
          (fun _ _ => SubprocessOutcome.completed 2 "" "boom")
          (fun _ _ => Except.ok [])) PICKERS ["lib.so"] "zenity"
        "Select candidate" false
        (PickerConfig.mk (some "shell") (some "zenity")
          (some (some ["--list", "--title=nix-alien: Choose a package",
            "--text=$title", "--column=Libraries"]))
          (some (some [0])) (some (some [1])) (some " "))
        _ _ rfl (by decide) rfl hf]
      rfl
    refine ⟨_, h1, ?_⟩
    show _ <:+: _
    simp only [executorErrorMsg, errMsg, shellExecFailMsg, List.map,
      safeSubstituteTitle_eval]
    decide

theorem C4_witness :
    pyStrip "cmd" ≠ "" ∧ (2 : Int) ∉ [(0 : Int)] ∧ (2 : Int) ∉ [(1 : Int)] ∧
      (runShell (fun _ _ => SubprocessOutcome.completed 2 "" "boom") [] "t"
          "cmd" (some []) (some [0]) (some [1]) "\n").result =
        .error (.runtimeError (shellExecFailMsg (pyStrip "cmd")
          (([] : List String).map (fun a => safeSubstituteTitle "t" a))
          (exitCodeMsg 2 "boom"))) ∧
      strContains (shellExecFailMsg (pyStrip "cmd")
          (([] : List String).map (fun a => safeSubstituteTitle "t" a))
          (exitCodeMsg 2 "boom")) ("Exit code " ++ toString (2 : Int)) ∧
      strContains (shellExecFailMsg (pyStrip "cmd")
          (([] : List String).map (fun a => safeSubstituteTitle "t" a))
          (exitCodeMsg 2 "boom")) (pyStrip "boom") := by
  have h := C4_unexpected_exit_wrapped [] "t" "cmd" [] [0] [1] "\n" 2 "" "boom"
    (by decide) (by decide) (by decide)
  exact ⟨by decide, by decide, by decide, h.1, h.2.1,
    h.2.2.1 (by decide) (by decide)⟩

end Picker
